import Mathlib

/-!
Verification of the ceph-csi RBD VolumeGroupSnapshot controller, the
capacity-based QoS calculation, and the volume-generation retry predicate,
against a shallow embedding of the Go source.

The controller methods (`CreateVolumeGroupSnapshot`,
`DeleteVolumeGroupSnapshot`, `GetVolumeGroupSnapshot`) drive an external
volume manager.  The manager's calls are embedded as oracles collected in a
`World` value: each oracle gives the outcome (success or error) the storage
cluster would return for a call.  The controller's own control flow — lock
handling, branch structure, deferred cleanup — is translated line by line
from the Go source, and the mutations it performs are recorded as an event
trace plus the resulting durable store and lock set.
-/

namespace CephCSI

/-- The gRPC status codes the controller returns. -/
inductive Code where
  | ok
  | invalidArgument
  | notFound
  | aborted
  | internal
deriving DecidableEq, Repr

/-- Member snapshot record: a source volume ID together with the snapshot
handle taken for it. -/
structure MemberSnapshot where
  sourceVolumeID : String
  snapshotHandle : String
deriving DecidableEq, Repr

/-- Internal state of a durable VolumeGroupSnapshot: a stable ID (for
delete/get lookups), the requested snapshot-set name (for create/idempotency
lookups), the member snapshots and the readiness flag. -/
structure GroupSnapshot where
  id : String
  name : String
  members : List MemberSnapshot
  ready : Bool
deriving DecidableEq, Repr

/-- External (CSI) representation of a group snapshot, the response shape of
Create and Get. -/
structure CSIVGS where
  groupSnapshotID : String
  readyToUse : Bool
  memberSnapshots : List MemberSnapshot
deriving DecidableEq, Repr

/-- Modelled from the spec: the Representation Converter
(`VolumeGroupSnapshot.ToCSI`, implemented in internal/rbd/group which is not
under src/) "fails loudly if required identity fields are absent", otherwise
it maps the internal group-snapshot state to the external response shape. -/
def toCSI (s : GroupSnapshot) : Except String CSIVGS :=
  if s.id = "" then
    Except.error "missing group snapshot ID"
  else
    Except.ok ⟨s.id, s.ready, s.members⟩

/-- Mutation events performed against the storage cluster during one
controller call, in execution order.  A `removeVolume` event records whether
the volume was a member of the group at the time of the call (removing a
non-member fails and is only logged by the cleanup code). -/
inductive Ev where
  | createVG (name : String)
  | addVolume (group vol : String) (ok : Bool)
  | removeVolume (group vol : String) (wasMember : Bool)
  | deleteVG (name : String)
  | createVGS (group name : String)
deriving DecidableEq, Repr

/-- World state and oracles for the external manager calls.  `locks` is the
state of `cs.VolumeGroupLocks`, `store` the durable group snapshots of the
cluster.  Each `...Err` oracle returns `some e` when the corresponding
manager call would fail with error `e`, and `none` when it would succeed.
`prepErr` carries the gRPC classification of the prepare failure, since the
controller surfaces `status.Code` of that error.  `lookupErr` is the error
`GetVolumeGroupSnapshotByName` reports when it finds no snapshot.
`byIdErr` is a non-not-found failure of `GetVolumeGroupSnapshotByID`
(not-found itself is modelled by the ID being absent from `store`).
`newVGS` gives the group snapshot record the atomic group-snapshot
primitive would create for a name and a member list. -/
structure World where
  locks : List String
  store : List GroupSnapshot
  resolveErr : String → Option String
  lookupErr : String → Option String
  credsErr : Option String
  prepErr : String → Option (Code × String)
  createVGErr : String → Option String
  addVolumeErr : String → Option String
  snapErr : Option String
  newVGS : String → List String → GroupSnapshot
  byIdErr : String → Option String
  deleteVGSErr : String → Option String

/-- Decidable equality for Except results, used to evaluate concrete
controller outcomes. -/
instance instDecEqExcept {ε α : Type} [DecidableEq ε] [DecidableEq α] :
    DecidableEq (Except ε α) := fun a b =>
  match a, b with
  | Except.error e, Except.error f =>
    match decEq e f with
    | isTrue h => isTrue (by rw [h])
    | isFalse h => isFalse (by intro hh; injection hh; contradiction)
  | Except.error _, Except.ok _ => isFalse (fun hh => Except.noConfusion hh)
  | Except.ok _, Except.error _ => isFalse (fun hh => Except.noConfusion hh)
  | Except.ok x, Except.ok y =>
    match decEq x y with
    | isTrue h => isTrue (by rw [h])
    | isFalse h => isFalse (by intro hh; injection hh; contradiction)

/-- CreateVolumeGroupSnapshotRequest: the snapshot-set name and the source
volume IDs (parameters and secrets are opaque to the orchestration and
omitted). -/
structure CreateReq where
  name : String
  sourceVolumeIds : List String
deriving DecidableEq, Repr

/-- Result of one Create call: the response or error, the durable store and
the lock set after the call, and the mutation event trace. -/
structure CreateResult where
  resp : Except (Code × String) CSIVGS
  store : List GroupSnapshot
  locks : List String
  events : List Ev
deriving DecidableEq, Repr

/-- Error message of the lock-conflict branch
(util.SnapshotOperationAlreadyExistsFmt). -/
def snapshotOpAlreadyExistsMsg (n : String) : String :=
  "an operation with the given Snapshot ID " ++ n ++ " already exists"

/-- Error message of a failed volume resolution. -/
def resolveFailMsg (id vgsName e : String) : String :=
  "failed to find required volume " ++ id ++ " for volume group snapshot " ++
    vgsName ++ ": " ++ e

/-- Error message of a failed volume-group creation. -/
def createVGFailMsg (vgName e : String) : String :=
  "failed to create volume group " ++ vgName ++ ": " ++ e

/-- Error message of failed snapshot preparation (the Go code formats the
whole list of collected failures into the message). -/
def prepareFailMsg (errList : List (Code × String)) : String :=
  "failed to prepare volumes for snapshot: " ++ String.intercalate ", " (errList.map (·.2))

/-- Error message of a failed by-ID group-snapshot fetch. -/
def fetchFailMsg (gid e : String) : String :=
  "could not fetch volume group snapshot with id " ++ gid ++ ": " ++ e

/-- Resolution loop of CreateVolumeGroupSnapshot (part_000 lines 223-235):
resolve each source volume ID in request order, stopping at the first
failure. -/
def resolveAll (w : World) : List String → Except (String × String) (List String)
  | [] => Except.ok []
  | id :: rest =>
    match w.resolveErr id with
    | some e => Except.error (id, e)
    | none =>
      match resolveAll w rest with
      | Except.error p => Except.error p
      | Except.ok vols => Except.ok (id :: vols)

/-- Preparation loop (part_000 lines 263-269): collect the failures of
PrepareVolumeForSnapshot over all volumes, in order. -/
def prepareErrs (w : World) (volumes : List String) : List (Code × String) :=
  volumes.filterMap w.prepErr

/-- AddVolume loop (part_000 lines 292-297): add each volume to the group in
request order, stopping at the first failure.  Returns the events, the
volumes actually added (the group members), and the first error if any. -/
def addAll (w : World) (g : String) : List String → List Ev × List String × Option String
  | [] => ([], [], none)
  | v :: rest =>
    match w.addVolumeErr v with
    | some e => ([Ev.addVolume g v false], [], some e)
    | none =>
      let r := addAll w g rest
      (Ev.addVolume g v true :: r.1, v :: r.2.1, r.2.2)

/-- Cleanup loop of the defer (part_000 lines 191-209): when the volume
group exists, RemoveVolume is invoked for every entry of the volumes slice,
whether or not it is a group member; removing a member removes it, removing
a non-member fails and is only logged. -/
def removeAll (g : String) : List String → List String → List Ev
  | _, [] => []
  | mems, v :: rest =>
    Ev.removeVolume g v (mems.contains v) :: removeAll g (mems.erase v) rest

/-- Group snapshot produced by the atomic group-snapshot primitive
(mgr.CreateVolumeGroupSnapshot): the record the cluster would create,
registered under the requested snapshot-set name. -/
def newSnap (w : World) (vgsName : String) (volumes : List String) : GroupSnapshot :=
  { w.newVGS vgsName volumes with name := vgsName }

/-- Phase of CreateVolumeGroupSnapshot from group creation onward (part_000
lines 278-312): create the ephemeral group, add the volumes, take the group
snapshot, convert it.  The deferred cleanup (remove every volume from the
group, delete the group) runs on every return once the group exists. -/
def createPhase3 (w : World) (vgsName vgName : String) (volumes : List String)
    (locksOut : List String) : CreateResult :=
  match addAll w vgName volumes with
  | (addEvs, members, some e) =>
    ⟨Except.error (Code.aborted, e), w.store, locksOut,
      Ev.createVG vgName :: (addEvs ++ (removeAll vgName members volumes ++ [Ev.deleteVG vgName]))⟩
  | (addEvs, members, none) =>
    match w.snapErr with
    | some e =>
      ⟨Except.error (Code.aborted, e), w.store, locksOut,
        Ev.createVG vgName :: (addEvs ++ (removeAll vgName members volumes ++ [Ev.deleteVG vgName]))⟩
    | none =>
      match toCSI (newSnap w vgsName volumes) with
      | Except.error e =>
        ⟨Except.error (Code.aborted, e), newSnap w vgsName volumes :: w.store, locksOut,
          Ev.createVG vgName :: (addEvs ++ (Ev.createVGS vgName vgsName ::
            (removeAll vgName members volumes ++ [Ev.deleteVG vgName])))⟩
      | Except.ok r =>
        ⟨Except.ok r, newSnap w vgsName volumes :: w.store, locksOut,
          Ev.createVG vgName :: (addEvs ++ (Ev.createVGS vgName vgsName ::
            (removeAll vgName members volumes ++ [Ev.deleteVG vgName])))⟩

/-- Phase of CreateVolumeGroupSnapshot from credential construction up to
group creation (part_000 lines 257-286): build credentials (Internal on
failure), prepare every volume collecting all failures and surfacing the
classification of the first one, then create the ephemeral group (Internal
on failure). -/
def createPhase2 (w : World) (vgsName vgName : String) (volumes : List String)
    (locksOut : List String) : CreateResult :=
  match w.credsErr with
  | some e => ⟨Except.error (Code.internal, e), w.store, locksOut, []⟩
  | none =>
    match prepareErrs w volumes with
    | e :: es => ⟨Except.error (e.1, prepareFailMsg (e :: es)), w.store, locksOut, []⟩
    | [] =>
      match w.createVGErr vgName with
      | some e => ⟨Except.error (Code.internal, createVGFailMsg vgName e), w.store, locksOut, []⟩
      | none => createPhase3 w vgsName vgName volumes locksOut

/-- Shallow embedding of ControllerServer.CreateVolumeGroupSnapshot
(part_000 lines 164-313).  The lock is acquired non-blockingly (Aborted when
already held) and released by defer on every exit; the volumes are resolved
(InvalidArgument at the first failure); the by-name idempotency lookup
returns the converted existing snapshot when one is found, and when the
lookup reports an error without a snapshot the Go code only logs it and
proceeds in exactly the same way as the not-found case. -/
def createVolumeGroupSnapshot (w : World) (req : CreateReq) : CreateResult :=
  if w.locks.contains req.name then
    ⟨Except.error (Code.aborted, snapshotOpAlreadyExistsMsg req.name), w.store, w.locks, []⟩
  else
    match resolveAll w req.sourceVolumeIds with
    | Except.error pe =>
      ⟨Except.error (Code.invalidArgument, resolveFailMsg pe.1 req.name pe.2), w.store,
        (req.name :: w.locks).erase req.name, []⟩
    | Except.ok volumes =>
      match w.store.find? (fun s => s.name == req.name) with
      | some s =>
        match toCSI s with
        | Except.error e =>
          ⟨Except.error (Code.aborted, e), w.store, (req.name :: w.locks).erase req.name, []⟩
        | Except.ok r =>
          ⟨Except.ok r, w.store, (req.name :: w.locks).erase req.name, []⟩
      | none =>
        match w.lookupErr req.name with
        | some _ =>
          createPhase2 w req.name (req.name ++ "-vg") volumes ((req.name :: w.locks).erase req.name)
        | none =>
          createPhase2 w req.name (req.name ++ "-vg") volumes ((req.name :: w.locks).erase req.name)

/-- Result of a Delete call. -/
structure DeleteResult where
  resp : Except (Code × String) Unit
  store : List GroupSnapshot
  locks : List String
deriving DecidableEq, Repr

/-- Shallow embedding of ControllerServer.DeleteVolumeGroupSnapshot
(part_000 lines 315-361): lock by the group snapshot ID, look the snapshot
up by ID (a not-found lookup returns an empty success response, any other
lookup failure returns Internal), delete it (Internal on failure). -/
def deleteVolumeGroupSnapshot (w : World) (gid : String) : DeleteResult :=
  if w.locks.contains gid then
    ⟨Except.error (Code.aborted, snapshotOpAlreadyExistsMsg gid), w.store, w.locks⟩
  else
    match w.byIdErr gid with
    | some e =>
      ⟨Except.error (Code.internal, fetchFailMsg gid e), w.store, (gid :: w.locks).erase gid⟩
    | none =>
      match w.store.find? (fun s => s.id == gid) with
      | none => ⟨Except.ok (), w.store, (gid :: w.locks).erase gid⟩
      | some s =>
        match w.deleteVGSErr s.id with
        | some e =>
          ⟨Except.error (Code.internal, "failed to delete volume group snapshot: " ++ e),
            w.store, (gid :: w.locks).erase gid⟩
        | none =>
          ⟨Except.ok (), w.store.filter (fun t => t.id != gid), (gid :: w.locks).erase gid⟩

/-- Result of a Get call (Get never mutates the durable store). -/
structure GetResult where
  resp : Except (Code × String) CSIVGS
  locks : List String
deriving DecidableEq, Repr

/-- Shallow embedding of ControllerServer.GetVolumeGroupSnapshot (part_000
lines 365-409): lock by the group snapshot ID, look the snapshot up by ID
(NotFound when it does not exist, Internal on any other lookup failure),
convert and return it (Aborted when conversion fails). -/
def getVolumeGroupSnapshot (w : World) (gid : String) : GetResult :=
  if w.locks.contains gid then
    ⟨Except.error (Code.aborted, snapshotOpAlreadyExistsMsg gid), w.locks⟩
  else
    match w.byIdErr gid with
    | some e =>
      ⟨Except.error (Code.internal, fetchFailMsg gid e), (gid :: w.locks).erase gid⟩
    | none =>
      match w.store.find? (fun s => s.id == gid) with
      | none =>
        ⟨Except.error (Code.notFound, "failed to get volume group snapshot with id " ++ gid),
          (gid :: w.locks).erase gid⟩
      | some s =>
        match toCSI s with
        | Except.error e => ⟨Except.error (Code.aborted, e), (gid :: w.locks).erase gid⟩
        | Except.ok r => ⟨Except.ok r, (gid :: w.locks).erase gid⟩

/-!
Capacity-based QoS calculation (src/unnamed/part_002).  The volume fields
and the parameter map entries are strings parsed with Go's
`strconv.ParseInt(s, 10, 64)`, and the capacity formula runs on Go `int64`
values, which wrap on overflow (two's complement).
-/

/-- Numeric value of a decimal digit character, accumulated left to right;
fails at the first non-digit. -/
def digitsValAux : Nat → List Char → Option Nat
  | acc, [] => some acc
  | acc, c :: cs =>
    if c.isDigit then digitsValAux (acc * 10 + (c.toNat - 48)) cs
    else none

/-- Embedding of Go's strconv.ParseInt(s, 10, 64): an optional sign followed
by at least one decimal digit, rejected when the value does not fit in a
signed 64-bit integer (Go reports ErrRange, which the caller treats as a
failure). -/
def parseInt64 (s : String) : Option Int :=
  match s.data with
  | [] => none
  | c :: cs =>
    let signDigits : Bool × List Char :=
      if c = '-' then (true, cs)
      else if c = '+' then (false, cs)
      else (false, c :: cs)
    match signDigits.2 with
    | [] => none
    | _ :: _ =>
      match digitsValAux 0 signDigits.2 with
      | none => none
      | some n =>
        let v : Int := if signDigits.1 then -(n : Int) else (n : Int)
        if v < -(2 ^ 63) ∨ 2 ^ 63 - 1 < v then none else some v

/-- Modelled from the spec: `oneGB`, the per-GiB unit used by the
capacity-based QoS calculation, is defined elsewhere in the repository (not
under src/); the expected values of TestSetQOS (src/unnamed/part_000 lines
107-119) pin it to 2^30. -/
def oneGB : Int := 1073741824

/-- Reduction of an integer to the Go int64 value with the same two's
complement representation (Go signed arithmetic wraps on overflow). -/
def wrap64 (z : Int) : Int := (z + 2 ^ 63) % 2 ^ 64 - 2 ^ 63

/-- qosSpec (part_002 lines 60-66): the rbd QoS parameter name, the base
limit, the per-GiB parameter name and limit, all as strings. -/
structure QosSpec where
  baseLimitType : String
  baseLimit : String
  perGiBLimitType : String
  perGiBLimit : String
  present : Bool
deriving DecidableEq, Repr

/-- The fields of rbdVolume read and written by calcQosBasedOnCapacity:
RequestedVolSize (an int64), BaseVolSize (a string, empty when absent) and
the QosParameters map, embedded as an association list in which the first
binding of a key is its value. -/
structure RbdVolume where
  RequestedVolSize : Int
  BaseVolSize : String
  QosParameters : List (String × String)
deriving DecidableEq, Repr

/-- Lookup in the QosParameters map. -/
def getQosParam (m : List (String × String)) (k : String) : Option String :=
  (m.find? (fun p => p.1 == k)).map (fun p => p.2)

/-- Shallow embedding of rbdVolume.calcQosBasedOnCapacity (part_002 lines
127-175).  With an empty base limit nothing is set; with a per-GiB limit and
a base volume size both present, the parameter is the base limit when
RequestedVolSize <= baseVolSize and otherwise
baseLimit + (RequestedVolSize - baseVolSize) / oneGB * perGiBLimit computed
in wrapping int64 arithmetic; in every other case the parameter is the base
limit string itself. -/
def calcQosBasedOnCapacity (rv : RbdVolume) (qos : QosSpec) : Except String RbdVolume :=
  if qos.baseLimit = "" then Except.ok rv
  else
    match parseInt64 qos.baseLimit with
    | none => Except.error ("failed to parse " ++ qos.baseLimitType)
    | some baseLimit =>
      if qos.perGiBLimit ≠ "" ∧ rv.BaseVolSize ≠ "" then
        match parseInt64 qos.perGiBLimit with
        | none => Except.error ("failed to parse " ++ qos.perGiBLimitType)
        | some perGiBLimit =>
          match parseInt64 rv.BaseVolSize with
          | none => Except.error "failed to parse BaseVolSizeBytes"
          | some baseVolSize =>
            if rv.RequestedVolSize ≤ baseVolSize then
              Except.ok { rv with
                QosParameters := (qos.baseLimitType, qos.baseLimit) :: rv.QosParameters }
            else
              let capacityQos :=
                wrap64 ((wrap64 (rv.RequestedVolSize - baseVolSize)).tdiv oneGB * perGiBLimit)
              let finalQosLimit := wrap64 (baseLimit + capacityQos)
              Except.ok { rv with
                QosParameters := (qos.baseLimitType, toString finalQosLimit) :: rv.QosParameters }
      else
        Except.ok { rv with
          QosParameters := (qos.baseLimitType, qos.baseLimit) :: rv.QosParameters }

/-!
Volume-generation retry predicate (src/internal/util/errors.go).  Go errors
are embedded as wrap chains ending either in one of the named sentinel
errors compared by identity, or in an anonymous error that is never
identical to a sentinel.
-/

/-- Identity of the sentinel errors relevant to ShouldRetryVolumeGeneration
(internal/util/errors.go lines 25-43 and rados.ErrPermissionDenied). -/
inductive ErrKind where
  | keyNotFound
  | poolNotFound
  | imageNotFound
  | permissionDenied
  | objectExists
  | objectNotFound
  | snapNameConflict
  | clusterIDNotSet
deriving DecidableEq, Repr

/-- Go error values as seen by errors.Is: a sentinel, a wrapping of an inner
error (fmt.Errorf with %w), or a plain error that matches no sentinel. -/
inductive GoError where
  | sentinel (k : ErrKind)
  | wrap (msg : String) (inner : GoError)
  | plain (msg : String)
deriving DecidableEq, Repr

/-- Embedding of errors.Is(e, target) for sentinel targets: walk the wrap
chain and compare each unwrapped error with the target by identity. -/
def errorsIs : GoError → ErrKind → Bool
  | GoError.sentinel k, t => k == t
  | GoError.wrap _ inner, t => errorsIs inner t
  | GoError.plain _, _ => false

/-- Shallow embedding of util.ShouldRetryVolumeGeneration
(internal/util/errors.go lines 61-70); `none` is Go's nil error. -/
def ShouldRetryVolumeGeneration : Option GoError → Bool
  | none => false
  | some e =>
    errorsIs e ErrKind.keyNotFound || errorsIs e ErrKind.poolNotFound ||
      errorsIs e ErrKind.imageNotFound || errorsIs e ErrKind.permissionDenied

/-- Sentinel at the base of a wrap chain, if any: the specification-level
notion of the error a value wraps. -/
def baseKind : GoError → Option ErrKind
  | GoError.sentinel k => some k
  | GoError.wrap _ inner => baseKind inner
  | GoError.plain _ => none

/-- The four error identities for which volume generation should be
retried. -/
def retryKinds : List ErrKind :=
  [ErrKind.keyNotFound, ErrKind.poolNotFound, ErrKind.imageNotFound,
    ErrKind.permissionDenied]

/-!
Concrete worlds used to evaluate the controller on specific inputs, and
projections used in the theorem statements.
-/

/-- Response the controller builds from an already existing group snapshot
found by the idempotency lookup. -/
def respOfExisting (s : GroupSnapshot) : Except (Code × String) CSIVGS :=
  match toCSI s with
  | Except.error e => Except.error (Code.aborted, e)
  | Except.ok r => Except.ok r

/-- Volumes removed from the ephemeral group by an event: the volume of a
`removeVolume` event that found the volume to be a group member. -/
def removedMember : Ev → Option String
  | Ev.removeVolume _ v true => some v
  | _ => none

/-- World in which every storage operation succeeds, the cluster holds no
group snapshot yet, and no lock is held. -/
def wOK : World where
  locks := []
  store := []
  resolveErr := fun _ => none
  lookupErr := fun _ => none
  credsErr := none
  prepErr := fun _ => none
  createVGErr := fun _ => none
  addVolumeErr := fun _ => none
  snapErr := none
  newVGS := fun n vols => ⟨n ++ "-id", n, vols.map (fun v => ⟨v, v ++ "-snap"⟩), true⟩
  byIdErr := fun _ => none
  deleteVGSErr := fun _ => none

/-- World in which the by-name lookup reports an error other than not-found
while every other operation succeeds. -/
def wLookupErr : World :=
  { wOK with lookupErr := fun _ => some "rados: connection reset" }

/-- World in which the lock for "vgs1" is already held. -/
def wLocked : World := { wOK with locks := ["vgs1"] }

/-- World in which adding volume "v2" to a group fails. -/
def wAddFail : World :=
  { wOK with addVolumeErr := fun v =>
      if v = "v2" then some "volume already belongs to another group" else none }

/-- World in which volume "vX" cannot be resolved. -/
def wResolveFail : World :=
  { wOK with resolveErr := fun v => if v = "vX" then some "volume not found" else none }

/-- World in which preparing volume "v1" for a snapshot fails with an
Internal classification. -/
def wPrepFail : World :=
  { wOK with prepErr := fun v =>
      if v = "v1" then some (Code.internal, "failed to flush v1") else none }

/-- World in which the by-ID group snapshot lookup fails with an error other
than not-found. -/
def wByIdErr : World := { wOK with byIdErr := fun _ => some "rados: timeout" }

/-- World in which the cluster already holds a group snapshot named
"vgs1". -/
def wFound : World :=
  { wOK with store := [⟨"gs-1", "vgs1", [⟨"v1", "h1"⟩], true⟩] }

/-!
Helper lemmas about the loop embeddings.
-/

theorem resolveAll_ok (w : World) (l : List String)
    (h : ∀ id ∈ l, w.resolveErr id = none) : resolveAll w l = Except.ok l := by
  induction l with
  | nil => rfl
  | cons a rest ih =>
    have ha : w.resolveErr a = none := h a (List.mem_cons_self a rest)
    have hr := ih (fun id hid => h id (List.mem_cons_of_mem a hid))
    simp [resolveAll, ha, hr]

theorem resolveAll_ok_eq (w : World) (l vols : List String)
    (h : resolveAll w l = Except.ok vols) : vols = l := by
  induction l generalizing vols with
  | nil =>
    simp only [resolveAll] at h
    injection h with h2
    exact h2.symm
  | cons a rest ih =>
    simp only [resolveAll] at h
    cases ha : w.resolveErr a with
    | some e => rw [ha] at h; exact absurd h (by simp)
    | none =>
      rw [ha] at h
      cases hr : resolveAll w rest with
      | error p => rw [hr] at h; exact absurd h (by simp)
      | ok vs =>
        rw [hr] at h
        have hv : vols = a :: vs := by
          injection h with h2
          exact h2.symm
        rw [hv, ih vs hr]

theorem resolveAll_err (w : World) (l : List String)
    (h : ∃ id ∈ l, w.resolveErr id ≠ none) :
    ∃ p, resolveAll w l = Except.error p := by
  induction l with
  | nil => simp at h
  | cons a rest ih =>
    rcases h with ⟨id, hmem, hne⟩
    rcases List.mem_cons.1 hmem with rfl | hmem2
    · cases ha : w.resolveErr id with
      | none => exact absurd ha hne
      | some e => exact ⟨(id, e), by simp [resolveAll, ha]⟩
    · cases ha : w.resolveErr a with
      | some e => exact ⟨(a, e), by simp [resolveAll, ha]⟩
      | none =>
        obtain ⟨p, hp⟩ := ih ⟨id, hmem2, hne⟩
        exact ⟨p, by simp [resolveAll, ha, hp]⟩

theorem addAll_ok (w : World) (g : String) (l : List String)
    (h : ∀ v ∈ l, w.addVolumeErr v = none) :
    addAll w g l = (l.map (fun v => Ev.addVolume g v true), l, none) := by
  induction l with
  | nil => rfl
  | cons a rest ih =>
    have ha := h a (List.mem_cons_self a rest)
    have hr := ih (fun v hv => h v (List.mem_cons_of_mem a hv))
    simp [addAll, ha, hr]

theorem addAll_fail (w : World) (g : String) (pre : List String) (v : String)
    (suf : List String) (e : String)
    (hpre : ∀ u ∈ pre, w.addVolumeErr u = none) (hv : w.addVolumeErr v = some e) :
    addAll w g (pre ++ v :: suf) =
      (pre.map (fun u => Ev.addVolume g u true) ++ [Ev.addVolume g v false],
        pre, some e) := by
  induction pre with
  | nil => simp [addAll, hv]
  | cons a p ih =>
    have ha := hpre a (List.mem_cons_self a p)
    have hr := ih (fun u hu => hpre u (List.mem_cons_of_mem a hu))
    simp [addAll, ha, hr]

theorem removeAll_nil_mems (g : String) (l : List String) :
    removeAll g [] l = l.map (fun v => Ev.removeVolume g v false) := by
  induction l with
  | nil => rfl
  | cons a rest ih => simp [removeAll, ih]

theorem removeAll_self_pre (g : String) (pre suf : List String) :
    removeAll g pre (pre ++ suf) =
      pre.map (fun v => Ev.removeVolume g v true) ++
        suf.map (fun v => Ev.removeVolume g v false) := by
  induction pre with
  | nil => simpa using removeAll_nil_mems g suf
  | cons a p ih => simp [removeAll, ih]

theorem addAll_events_shape (w : World) (g : String) (l : List String) :
    ∀ e ∈ (addAll w g l).1, ∃ v b, e = Ev.addVolume g v b := by
  induction l with
  | nil => intro e he; simp [addAll] at he
  | cons a rest ih =>
    intro e he
    cases ha : w.addVolumeErr a with
    | some err =>
      simp [addAll, ha] at he
      exact ⟨a, false, he⟩
    | none =>
      simp only [addAll, ha, List.mem_cons] at he
      rcases he with rfl | he2
      · exact ⟨a, true, rfl⟩
      · exact ih e he2

theorem removeAll_events_shape (g : String) (l : List String) :
    ∀ mems, ∀ e ∈ removeAll g mems l, ∃ v b, e = Ev.removeVolume g v b := by
  induction l with
  | nil => intro mems e he; simp [removeAll] at he
  | cons a rest ih =>
    intro mems e he
    simp only [removeAll, List.mem_cons] at he
    rcases he with rfl | he2
    · exact ⟨a, mems.contains a, rfl⟩
    · exact ih (mems.erase a) e he2

theorem filterMap_removed_true (g : String) (l : List String) :
    List.filterMap removedMember (l.map (fun v => Ev.removeVolume g v true)) = l := by
  induction l with
  | nil => rfl
  | cons a rest ih => simp [removedMember, ih]

theorem filterMap_removed_false (g : String) (l : List String) :
    List.filterMap removedMember (l.map (fun v => Ev.removeVolume g v false)) = [] := by
  induction l with
  | nil => rfl
  | cons a rest ih => simp [removedMember, ih]

theorem filterMap_removed_addEvs (w : World) (g : String) (l : List String) :
    List.filterMap removedMember (addAll w g l).1 = [] := by
  induction l with
  | nil => rfl
  | cons a rest ih =>
    cases ha : w.addVolumeErr a with
    | some e => simp [addAll, ha, removedMember]
    | none => simp [addAll, ha, removedMember, ih]

/-!
Structural lemmas about the controller phases.
-/

theorem createPhase3_shape (w : World) (a b : String) (vols lk : List String) :
    (createPhase3 w a b vols lk).locks = lk ∧
    ∃ mid, (mid = [] ∨ mid = [Ev.createVGS b a]) ∧
      (createPhase3 w a b vols lk).events =
        Ev.createVG b :: ((addAll w b vols).1 ++
          (mid ++ (removeAll b (addAll w b vols).2.1 vols ++ [Ev.deleteVG b]))) := by
  unfold createPhase3
  rcases h : addAll w b vols with ⟨evs, mems, err⟩
  cases err with
  | some e => exact ⟨rfl, [], Or.inl rfl, by simp⟩
  | none =>
    cases hs : w.snapErr with
    | some e => exact ⟨rfl, [], Or.inl rfl, by simp⟩
    | none =>
      cases hc : toCSI (newSnap w a vols) with
      | error e => exact ⟨rfl, [Ev.createVGS b a], Or.inr rfl, by simp⟩
      | ok r => exact ⟨rfl, [Ev.createVGS b a], Or.inr rfl, by simp⟩

theorem createPhase2_locks (w : World) (a b : String) (vols lk : List String) :
    (createPhase2 w a b vols lk).locks = lk := by
  unfold createPhase2
  cases hc : w.credsErr with
  | some e => rfl
  | none =>
    cases hp : prepareErrs w vols with
    | cons e es => rfl
    | nil =>
      cases hv : w.createVGErr b with
      | some e => rfl
      | none => exact (createPhase3_shape w a b vols lk).1

theorem createPhase2_events_cases (w : World) (a b : String) (vols lk : List String) :
    (createPhase2 w a b vols lk).events = [] ∨
      createPhase2 w a b vols lk = createPhase3 w a b vols lk := by
  unfold createPhase2
  cases hc : w.credsErr with
  | some e => exact Or.inl rfl
  | none =>
    cases hp : prepareErrs w vols with
    | cons e es => exact Or.inl rfl
    | nil =>
      cases hv : w.createVGErr b with
      | some e => exact Or.inl rfl
      | none => exact Or.inr rfl

theorem create_split (w : World) (req : CreateReq) :
    (w.locks.contains req.name = true ∧
      createVolumeGroupSnapshot w req =
        ⟨Except.error (Code.aborted, snapshotOpAlreadyExistsMsg req.name),
          w.store, w.locks, []⟩) ∨
    (w.locks.contains req.name = false ∧
      (createVolumeGroupSnapshot w req).locks = (req.name :: w.locks).erase req.name ∧
      ((createVolumeGroupSnapshot w req).events = [] ∨
        createVolumeGroupSnapshot w req =
          createPhase2 w req.name (req.name ++ "-vg") req.sourceVolumeIds
            ((req.name :: w.locks).erase req.name))) := by
  unfold createVolumeGroupSnapshot
  cases hl : w.locks.contains req.name with
  | true =>
    left
    exact ⟨rfl, by simp⟩
  | false =>
    right
    refine ⟨rfl, ?_⟩
    simp only [Bool.false_eq_true, if_false]
    split
    next pe heq => exact ⟨rfl, Or.inl rfl⟩
    next volumes heq =>
      obtain rfl : volumes = req.sourceVolumeIds := resolveAll_ok_eq w _ volumes heq
      split
      next s hf =>
        split
        next e hc => exact ⟨rfl, Or.inl rfl⟩
        next r hc => exact ⟨rfl, Or.inl rfl⟩
      next hf =>
        split
        next e hle =>
          exact ⟨createPhase2_locks w req.name (req.name ++ "-vg") req.sourceVolumeIds _,
            Or.inr rfl⟩
        next hle =>
          exact ⟨createPhase2_locks w req.name (req.name ++ "-vg") req.sourceVolumeIds _,
            Or.inr rfl⟩

theorem removedMember_createVG (n : String) : removedMember (Ev.createVG n) = none := rfl

theorem removedMember_addVolume (g v : String) (b : Bool) :
    removedMember (Ev.addVolume g v b) = none := rfl

theorem removedMember_deleteVG (n : String) : removedMember (Ev.deleteVG n) = none := rfl

theorem removedMember_createVGS (g n : String) :
    removedMember (Ev.createVGS g n) = none := rfl

theorem removedMember_remove_true (g v : String) :
    removedMember (Ev.removeVolume g v true) = some v := rfl

theorem removedMember_remove_false (g v : String) :
    removedMember (Ev.removeVolume g v false) = none := rfl

theorem filterMap_removed_addMap (g : String) (l : List String) (b : Bool) :
    List.filterMap removedMember (l.map (fun v => Ev.addVolume g v b)) = [] := by
  induction l with
  | nil => rfl
  | cons a rest ih => simp [removedMember_addVolume, ih]

theorem filterMap_comp_addVolume (g : String) (b : Bool) (l : List String) :
    List.filterMap (removedMember ∘ fun v => Ev.addVolume g v b) l = [] := by
  induction l with
  | nil => rfl
  | cons a rest ih => simp [Function.comp, removedMember_addVolume, ih]

theorem filterMap_comp_remove_true (g : String) (l : List String) :
    List.filterMap (removedMember ∘ fun v => Ev.removeVolume g v true) l = l := by
  induction l with
  | nil => rfl
  | cons a rest ih => simp [Function.comp, removedMember_remove_true, ih]

theorem filterMap_comp_remove_false (g : String) (l : List String) :
    List.filterMap (removedMember ∘ fun v => Ev.removeVolume g v false) l = [] := by
  induction l with
  | nil => rfl
  | cons a rest ih => simp [Function.comp, removedMember_remove_false, ih]

theorem removeAll_self (g : String) (l : List String) :
    removeAll g l l = l.map (fun v => Ev.removeVolume g v true) := by
  have h := removeAll_self_pre g l []
  simpa using h

theorem create_to_phase2 (w : World) (name : String) (ids : List String)
    (hl : w.locks.contains name = false)
    (hres : ∀ id ∈ ids, w.resolveErr id = none)
    (hfind : w.store.find? (fun t => t.name == name) = none) :
    createVolumeGroupSnapshot w ⟨name, ids⟩ =
      createPhase2 w name (name ++ "-vg") ids ((name :: w.locks).erase name) := by
  unfold createVolumeGroupSnapshot
  simp only [hl, Bool.false_eq_true, if_false, resolveAll_ok w ids hres, hfind]
  cases w.lookupErr name <;> rfl

theorem create_found (w : World) (name : String) (ids : List String) (s : GroupSnapshot)
    (hl : w.locks.contains name = false)
    (hres : ∀ id ∈ ids, w.resolveErr id = none)
    (hfind : w.store.find? (fun t => t.name == name) = some s) :
    createVolumeGroupSnapshot w ⟨name, ids⟩ =
      ⟨respOfExisting s, w.store, (name :: w.locks).erase name, []⟩ := by
  unfold createVolumeGroupSnapshot
  simp only [hl, Bool.false_eq_true, if_false, resolveAll_ok w ids hres, hfind]
  unfold respOfExisting
  cases toCSI s <;> rfl

theorem createPhase2_all_ok (w : World) (a b : String) (vols lk : List String)
    (hcred : w.credsErr = none)
    (hprep : ∀ u ∈ vols, w.prepErr u = none)
    (hvg : w.createVGErr b = none)
    (hadd : ∀ u ∈ vols, w.addVolumeErr u = none)
    (hsnap : w.snapErr = none) :
    createPhase2 w a b vols lk =
      ⟨respOfExisting (newSnap w a vols), newSnap w a vols :: w.store, lk,
        Ev.createVG b :: (vols.map (fun v => Ev.addVolume b v true) ++
          (Ev.createVGS b a :: (vols.map (fun v => Ev.removeVolume b v true) ++
            [Ev.deleteVG b])))⟩ := by
  have hpe : prepareErrs w vols = [] := List.filterMap_eq_nil_iff.2 hprep
  have hra := addAll_ok w b vols hadd
  unfold createPhase2 createPhase3
  rw [hcred, hpe, hvg, hra]
  cases hc : toCSI (newSnap w a vols) with
  | error e => simp [hsnap, respOfExisting, hc, removeAll_self]
  | ok r => simp [hsnap, respOfExisting, hc, removeAll_self]

theorem createPhase3_deleteVG (w : World) (a b : String) (vols lk : List String)
    (g : String) (h : Ev.createVG g ∈ (createPhase3 w a b vols lk).events) :
    Ev.deleteVG g ∈ (createPhase3 w a b vols lk).events := by
  obtain ⟨-, mid, hmid, he⟩ := createPhase3_shape w a b vols lk
  rw [he] at h ⊢
  rcases List.mem_cons.1 h with heq | hrest
  · injection heq with hg
    subst hg
    simp
  · exfalso
    rcases List.mem_append.1 hrest with h1 | h23
    · obtain ⟨v, bb, hvb⟩ := addAll_events_shape w b vols _ h1
      exact Ev.noConfusion hvb
    · rcases List.mem_append.1 h23 with h2 | h34
      · rcases hmid with rfl | rfl
        · simp at h2
        · simp at h2
      · rcases List.mem_append.1 h34 with h3 | h4
        · obtain ⟨v, bb, hvb⟩ := removeAll_events_shape b vols _ _ h3
          exact Ev.noConfusion hvb
        · simp at h4

theorem createPhase2_deleteVG (w : World) (a b : String) (vols lk : List String)
    (g : String) (h : Ev.createVG g ∈ (createPhase2 w a b vols lk).events) :
    Ev.deleteVG g ∈ (createPhase2 w a b vols lk).events := by
  rcases createPhase2_events_cases w a b vols lk with he | he
  · rw [he] at h
    simp at h
  · rw [he] at h ⊢
    exact createPhase3_deleteVG w a b vols lk g h

/-!
Claim theorems.
-/

/-- Claim C5: when the name lock is already held, Create fails with Aborted
before performing any operation (no event, store and locks unchanged); and
whenever the lock is acquired, it is released on every exit path, so the
lock set after the call equals the lock set before it. -/
theorem vgs_create_lock_protocol :
    (∀ (w : World) (req : CreateReq), w.locks.contains req.name = true →
      createVolumeGroupSnapshot w req =
        ⟨Except.error (Code.aborted, snapshotOpAlreadyExistsMsg req.name),
          w.store, w.locks, []⟩) ∧
    (∀ (w : World) (req : CreateReq), w.locks.contains req.name = false →
      (createVolumeGroupSnapshot w req).locks = w.locks) := by
  constructor
  · intro w req h
    rcases create_split w req with ⟨-, he⟩ | ⟨hfalse, -, -⟩
    · exact he
    · rw [h] at hfalse
      exact absurd hfalse (by decide)
  · intro w req h
    rcases create_split w req with ⟨htrue, -⟩ | ⟨-, hlk, -⟩
    · rw [h] at htrue
      exact absurd htrue (by decide)
    · rw [hlk]
      exact List.erase_cons_head req.name w.locks

/-- Witness for C5: with the "vgs1" lock held, Create aborts untouched; with
it free, the lock set after the call equals the lock set before it. -/
theorem vgs_create_lock_protocol_witness :
    createVolumeGroupSnapshot wLocked ⟨"vgs1", ["v1"]⟩ =
      ⟨Except.error (Code.aborted, snapshotOpAlreadyExistsMsg "vgs1"),
        wLocked.store, wLocked.locks, []⟩ ∧
    (createVolumeGroupSnapshot wOK ⟨"vgs1", ["v1"]⟩).locks = wOK.locks :=
  ⟨vgs_create_lock_protocol.1 wLocked ⟨"vgs1", ["v1"]⟩ (by decide),
    vgs_create_lock_protocol.2 wOK ⟨"vgs1", ["v1"]⟩ (by decide)⟩

/-- Claim C6: on every execution path of Create in which the ephemeral
VolumeGroup was created, its deletion is invoked before the operation
returns: a createVG event in the trace is always followed by a deleteVG
event for the same group. -/
theorem vgs_ephemeral_group_always_deleted (w : World) (req : CreateReq) (g : String)
    (h : Ev.createVG g ∈ (createVolumeGroupSnapshot w req).events) :
    Ev.deleteVG g ∈ (createVolumeGroupSnapshot w req).events := by
  rcases create_split w req with ⟨-, he⟩ | ⟨-, -, hev | he⟩
  · rw [he] at h
    simp at h
  · rw [hev] at h
    simp at h
  · rw [he] at h ⊢
    exact createPhase2_deleteVG w req.name (req.name ++ "-vg") req.sourceVolumeIds _ g h

/-- Witness for C6: a successful Create on "vgs1" creates the ephemeral
group "vgs1-vg" and, by the theorem, also deletes it before returning. -/
theorem vgs_ephemeral_group_always_deleted_witness :
    Ev.createVG "vgs1-vg" ∈ (createVolumeGroupSnapshot wOK ⟨"vgs1", ["v1"]⟩).events ∧
    Ev.deleteVG "vgs1-vg" ∈ (createVolumeGroupSnapshot wOK ⟨"vgs1", ["v1"]⟩).events :=
  ⟨by decide, vgs_ephemeral_group_always_deleted wOK ⟨"vgs1", ["v1"]⟩ "vgs1-vg" (by decide)⟩

/-- Claim C4: when any single source volume ID fails to resolve, the whole
Create call fails immediately with InvalidArgument, no event is performed
(in particular no volume group is created) and the durable store is
unchanged. -/
theorem vgs_create_resolve_failure (w : World) (name : String) (ids : List String)
    (hl : w.locks.contains name = false)
    (h : ∃ id ∈ ids, w.resolveErr id ≠ none) :
    (∃ m, (createVolumeGroupSnapshot w ⟨name, ids⟩).resp =
      Except.error (Code.invalidArgument, m)) ∧
    (createVolumeGroupSnapshot w ⟨name, ids⟩).events = [] ∧
    (createVolumeGroupSnapshot w ⟨name, ids⟩).store = w.store ∧
    ∀ g, Ev.createVG g ∉ (createVolumeGroupSnapshot w ⟨name, ids⟩).events := by
  obtain ⟨p, hp⟩ := resolveAll_err w ids h
  have hred : createVolumeGroupSnapshot w ⟨name, ids⟩ =
      ⟨Except.error (Code.invalidArgument, resolveFailMsg p.1 name p.2), w.store,
        (name :: w.locks).erase name, []⟩ := by
    unfold createVolumeGroupSnapshot
    simp only [hl, Bool.false_eq_true, if_false, hp]
  rw [hred]
  exact ⟨⟨resolveFailMsg p.1 name p.2, rfl⟩, rfl, rfl, fun g => by simp⟩

/-- Witness for C4: Create("vgs2", [v1, vX]) with vX unresolvable fails with
InvalidArgument and performs no mutation. -/
theorem vgs_create_resolve_failure_witness :
    (∃ m, (createVolumeGroupSnapshot wResolveFail ⟨"vgs2", ["v1", "vX"]⟩).resp =
      Except.error (Code.invalidArgument, m)) ∧
    (createVolumeGroupSnapshot wResolveFail ⟨"vgs2", ["v1", "vX"]⟩).events = [] ∧
    (createVolumeGroupSnapshot wResolveFail ⟨"vgs2", ["v1", "vX"]⟩).store =
      wResolveFail.store ∧
    ∀ g, Ev.createVG g ∉
      (createVolumeGroupSnapshot wResolveFail ⟨"vgs2", ["v1", "vX"]⟩).events :=
  vgs_create_resolve_failure wResolveFail "vgs2" ["v1", "vX"] (by decide)
    ⟨"vX", by decide, by decide⟩

/-- Claim C8: when one or more volumes fail preparation, Create aborts with
the classification of the first failure, no event is performed (the
ephemeral group is never created) and the store is unchanged. -/
theorem vgs_create_prepare_failure (w : World) (name : String)
    (pre suf : List String) (v : String) (c : Code) (m : String)
    (hl : w.locks.contains name = false)
    (hres : ∀ id ∈ pre ++ v :: suf, w.resolveErr id = none)
    (hfind : w.store.find? (fun t => t.name == name) = none)
    (hcred : w.credsErr = none)
    (hpre : ∀ u ∈ pre, w.prepErr u = none)
    (hv : w.prepErr v = some (c, m)) :
    (∃ msg, (createVolumeGroupSnapshot w ⟨name, pre ++ v :: suf⟩).resp =
      Except.error (c, msg)) ∧
    (createVolumeGroupSnapshot w ⟨name, pre ++ v :: suf⟩).events = [] ∧
    (createVolumeGroupSnapshot w ⟨name, pre ++ v :: suf⟩).store = w.store := by
  have hpe : prepareErrs w (pre ++ v :: suf) = (c, m) :: prepareErrs w suf := by
    unfold prepareErrs
    rw [List.filterMap_append, List.filterMap_eq_nil_iff.2 hpre]
    simp [List.filterMap_cons, hv, prepareErrs]
  have hred := create_to_phase2 w name (pre ++ v :: suf) hl hres hfind
  rw [hred]
  unfold createPhase2
  rw [hcred, hpe]
  exact ⟨⟨prepareFailMsg ((c, m) :: prepareErrs w suf), rfl⟩, rfl, rfl⟩

/-- Witness for C8: preparation of v1 fails with an Internal classification,
so Create("vgs1", [v1, v2]) surfaces Internal and never creates the
group. -/
theorem vgs_create_prepare_failure_witness :
    (∃ msg, (createVolumeGroupSnapshot wPrepFail ⟨"vgs1", [] ++ "v1" :: ["v2"]⟩).resp =
      Except.error (Code.internal, msg)) ∧
    (createVolumeGroupSnapshot wPrepFail ⟨"vgs1", [] ++ "v1" :: ["v2"]⟩).events = [] ∧
    (createVolumeGroupSnapshot wPrepFail ⟨"vgs1", [] ++ "v1" :: ["v2"]⟩).store =
      wPrepFail.store :=
  vgs_create_prepare_failure wPrepFail "vgs1" [] ["v2"] "v1" Code.internal
    "failed to flush v1" (by decide) (by decide) (by decide) (by decide)
    (by decide) (by decide)

/-- Counterexample for C3: with a by-name lookup error other than not-found
("rados: connection reset") and no existing snapshot, Create does not abort
with Internal: it proceeds, creates the ephemeral group and returns a newly
created snapshot. -/
theorem vgs_lookup_error_cex :
    wLookupErr.lookupErr "vgs1" = some "rados: connection reset" ∧
    wLookupErr.store.find? (fun t => t.name == "vgs1") = none ∧
    (createVolumeGroupSnapshot wLookupErr ⟨"vgs1", ["v1"]⟩).resp =
      Except.ok ⟨"vgs1-id", true, [⟨"v1", "v1-snap"⟩]⟩ ∧
    Ev.createVG "vgs1-vg" ∈ (createVolumeGroupSnapshot wLookupErr ⟨"vgs1", ["v1"]⟩).events :=
  ⟨rfl, rfl, by decide, by decide⟩

/-- Claim C3 amended: a by-name lookup failure other than not-found is only
logged; when the lookup yields no snapshot the call proceeds to the creation
pipeline (credentials, prepare, group, snapshot) exactly as in the not-found
case, instead of aborting with Internal. -/
theorem vgs_lookup_error_ignored (w : World) (name : String) (ids : List String)
    (e : String)
    (hl : w.locks.contains name = false)
    (hres : ∀ id ∈ ids, w.resolveErr id = none)
    (hfind : w.store.find? (fun t => t.name == name) = none)
    (_he : w.lookupErr name = some e) :
    createVolumeGroupSnapshot w ⟨name, ids⟩ =
      createPhase2 w name (name ++ "-vg") ids ((name :: w.locks).erase name) :=
  create_to_phase2 w name ids hl hres hfind

/-- Witness for C3 (amended): the lookup error world reduces Create to the
creation pipeline. -/
theorem vgs_lookup_error_ignored_witness :
    createVolumeGroupSnapshot wLookupErr ⟨"vgs2", ["v1"]⟩ =
      createPhase2 wLookupErr "vgs2" ("vgs2" ++ "-vg") ["v1"]
        (("vgs2" :: wLookupErr.locks).erase "vgs2") :=
  vgs_lookup_error_ignored wLookupErr "vgs2" ["v1"] "rados: connection reset"
    (by decide) (by decide) (by decide) rfl

/-- Claim C7: for a groupSnapshotID that does not exist, Delete returns
success while Get fails with NotFound; a by-ID lookup failure other than
not-found makes both fail with Internal. -/
theorem vgs_delete_get_absent (w : World) (gid : String)
    (hl : w.locks.contains gid = false) :
    ((w.byIdErr gid = none ∧ w.store.find? (fun s => s.id == gid) = none) →
      (deleteVolumeGroupSnapshot w gid).resp = Except.ok () ∧
      ∃ m, (getVolumeGroupSnapshot w gid).resp = Except.error (Code.notFound, m)) ∧
    (∀ e, w.byIdErr gid = some e →
      (∃ m, (deleteVolumeGroupSnapshot w gid).resp = Except.error (Code.internal, m)) ∧
      ∃ m, (getVolumeGroupSnapshot w gid).resp = Except.error (Code.internal, m)) := by
  constructor
  · rintro ⟨hb, hf⟩
    constructor
    · unfold deleteVolumeGroupSnapshot
      simp only [hl, Bool.false_eq_true, if_false, hb, hf]
    · refine ⟨"failed to get volume group snapshot with id " ++ gid, ?_⟩
      unfold getVolumeGroupSnapshot
      simp only [hl, Bool.false_eq_true, if_false, hb, hf]
  · intro e hb
    constructor
    · refine ⟨fetchFailMsg gid e, ?_⟩
      unfold deleteVolumeGroupSnapshot
      simp only [hl, Bool.false_eq_true, if_false, hb]
    · refine ⟨fetchFailMsg gid e, ?_⟩
      unfold getVolumeGroupSnapshot
      simp only [hl, Bool.false_eq_true, if_false, hb]

/-- Witness for C7: Delete of a missing ID succeeds and Get of it is
NotFound; with a by-ID lookup error both return Internal. -/
theorem vgs_delete_get_absent_witness :
    ((deleteVolumeGroupSnapshot wOK "missing-id").resp = Except.ok () ∧
      ∃ m, (getVolumeGroupSnapshot wOK "missing-id").resp =
        Except.error (Code.notFound, m)) ∧
    ((∃ m, (deleteVolumeGroupSnapshot wByIdErr "some-id").resp =
        Except.error (Code.internal, m)) ∧
      ∃ m, (getVolumeGroupSnapshot wByIdErr "some-id").resp =
        Except.error (Code.internal, m)) :=
  ⟨(vgs_delete_get_absent wOK "missing-id" (by decide)).1 ⟨rfl, rfl⟩,
    (vgs_delete_get_absent wByIdErr "some-id" (by decide)).2 "rados: timeout" rfl⟩

/-- Claim C2: when adding volume v (the k-th, after the successfully added
volumes pre = 1..k-1) to the ephemeral group fails, Create returns Aborted,
no VolumeGroupSnapshot is produced (no createVGS event, store unchanged),
cleanup removes from the group exactly the volumes pre, and the ephemeral
group is deleted before the call returns. -/
theorem vgs_create_add_failure_cleanup (w : World) (name : String)
    (pre suf : List String) (v e : String)
    (hl : w.locks.contains name = false)
    (hres : ∀ id ∈ pre ++ v :: suf, w.resolveErr id = none)
    (hfind : w.store.find? (fun t => t.name == name) = none)
    (hcred : w.credsErr = none)
    (hprep : ∀ u ∈ pre ++ v :: suf, w.prepErr u = none)
    (hvg : w.createVGErr (name ++ "-vg") = none)
    (hpre : ∀ u ∈ pre, w.addVolumeErr u = none)
    (hv : w.addVolumeErr v = some e) :
    (createVolumeGroupSnapshot w ⟨name, pre ++ v :: suf⟩).resp =
      Except.error (Code.aborted, e) ∧
    (createVolumeGroupSnapshot w ⟨name, pre ++ v :: suf⟩).store = w.store ∧
    (∀ gr n, Ev.createVGS gr n ∉
      (createVolumeGroupSnapshot w ⟨name, pre ++ v :: suf⟩).events) ∧
    List.filterMap removedMember
      (createVolumeGroupSnapshot w ⟨name, pre ++ v :: suf⟩).events = pre ∧
    Ev.deleteVG (name ++ "-vg") ∈
      (createVolumeGroupSnapshot w ⟨name, pre ++ v :: suf⟩).events := by
  have hpe : prepareErrs w (pre ++ v :: suf) = [] := List.filterMap_eq_nil_iff.2 hprep
  have hadd := addAll_fail w (name ++ "-vg") pre v suf e hpre hv
  have hfull : createVolumeGroupSnapshot w ⟨name, pre ++ v :: suf⟩ =
      ⟨Except.error (Code.aborted, e), w.store, (name :: w.locks).erase name,
        Ev.createVG (name ++ "-vg") ::
          ((pre.map (fun u => Ev.addVolume (name ++ "-vg") u true) ++
              [Ev.addVolume (name ++ "-vg") v false]) ++
            (removeAll (name ++ "-vg") pre (pre ++ v :: suf) ++
              [Ev.deleteVG (name ++ "-vg")]))⟩ := by
    rw [create_to_phase2 w name (pre ++ v :: suf) hl hres hfind]
    unfold createPhase2 createPhase3
    rw [hcred, hpe, hvg, hadd]
  rw [hfull]
  refine ⟨rfl, rfl, ?_, ?_, ?_⟩
  · intro gr n hmem
    simp [removeAll_self_pre] at hmem
  · rw [removeAll_self_pre]
    simp [List.filterMap_cons, List.filterMap_append, removedMember_createVG,
      removedMember_addVolume, removedMember_deleteVG, removedMember_remove_false,
      filterMap_comp_addVolume, filterMap_comp_remove_true, filterMap_comp_remove_false]
  · simp

/-- Witness for C2: adding v2 (the 2nd of [v1, v2, v3]) fails, so Create
aborts, removes exactly v1 from the group and deletes the group. -/
theorem vgs_create_add_failure_cleanup_witness :
    (createVolumeGroupSnapshot wAddFail ⟨"vgs3", ["v1"] ++ "v2" :: ["v3"]⟩).resp =
      Except.error (Code.aborted, "volume already belongs to another group") ∧
    (createVolumeGroupSnapshot wAddFail ⟨"vgs3", ["v1"] ++ "v2" :: ["v3"]⟩).store =
      wAddFail.store ∧
    (∀ gr n, Ev.createVGS gr n ∉
      (createVolumeGroupSnapshot wAddFail ⟨"vgs3", ["v1"] ++ "v2" :: ["v3"]⟩).events) ∧
    List.filterMap removedMember
      (createVolumeGroupSnapshot wAddFail ⟨"vgs3", ["v1"] ++ "v2" :: ["v3"]⟩).events =
        ["v1"] ∧
    Ev.deleteVG ("vgs3" ++ "-vg") ∈
      (createVolumeGroupSnapshot wAddFail ⟨"vgs3", ["v1"] ++ "v2" :: ["v3"]⟩).events :=
  vgs_create_add_failure_cleanup wAddFail "vgs3" ["v1"] ["v3"] "v2"
    "volume already belongs to another group" (by decide) (by decide) (by decide)
    (by decide) (by decide) (by decide) (by decide) (by decide)

/-- Claim C1: (idempotent create) part 1: when the by-name lookup finds an
existing group snapshot, Create returns it converted and performs no
mutation at all (no event, store unchanged, lock set unchanged); part 2: a
second identical Create after a successful first one returns the very same
response (same groupSnapshotID and memberSnapshots), leaves the store as the
first call left it, and performs no event at all. -/
theorem vgs_create_idempotent :
    (∀ (w : World) (name : String) (ids : List String) (s : GroupSnapshot),
      w.locks.contains name = false →
      (∀ id ∈ ids, w.resolveErr id = none) →
      w.store.find? (fun t => t.name == name) = some s →
      createVolumeGroupSnapshot w ⟨name, ids⟩ =
        ⟨respOfExisting s, w.store, w.locks, []⟩) ∧
    (∀ (w : World) (name : String) (ids : List String),
      w.locks.contains name = false →
      (∀ id ∈ ids, w.resolveErr id = none) →
      w.store.find? (fun t => t.name == name) = none →
      w.credsErr = none →
      (∀ u ∈ ids, w.prepErr u = none) →
      w.createVGErr (name ++ "-vg") = none →
      (∀ u ∈ ids, w.addVolumeErr u = none) →
      w.snapErr = none →
      (w.newVGS name ids).id ≠ "" →
      (createVolumeGroupSnapshot w ⟨name, ids⟩).resp =
        Except.ok ⟨(w.newVGS name ids).id, (w.newVGS name ids).ready,
          (w.newVGS name ids).members⟩ ∧
      createVolumeGroupSnapshot
          { w with store := (createVolumeGroupSnapshot w ⟨name, ids⟩).store,
                   locks := (createVolumeGroupSnapshot w ⟨name, ids⟩).locks }
          ⟨name, ids⟩ =
        ⟨(createVolumeGroupSnapshot w ⟨name, ids⟩).resp,
          (createVolumeGroupSnapshot w ⟨name, ids⟩).store,
          (createVolumeGroupSnapshot w ⟨name, ids⟩).locks, []⟩) := by
  constructor
  · intro w name ids s hl hres hfind
    rw [create_found w name ids s hl hres hfind]
    simp [List.erase_cons_head]
  · intro w name ids hl hres hfind hcred hprep hvg hadd hsnap hid
    have h1 : createVolumeGroupSnapshot w ⟨name, ids⟩ =
        ⟨respOfExisting (newSnap w name ids), newSnap w name ids :: w.store,
          (name :: w.locks).erase name,
          Ev.createVG (name ++ "-vg") ::
            (ids.map (fun u => Ev.addVolume (name ++ "-vg") u true) ++
              (Ev.createVGS (name ++ "-vg") name ::
                (ids.map (fun u => Ev.removeVolume (name ++ "-vg") u true) ++
                  [Ev.deleteVG (name ++ "-vg")])))⟩ := by
      rw [create_to_phase2 w name ids hl hres hfind,
        createPhase2_all_ok w name (name ++ "-vg") ids _ hcred hprep hvg hadd hsnap]
    have hresp : respOfExisting (newSnap w name ids) =
        Except.ok ⟨(w.newVGS name ids).id, (w.newVGS name ids).ready,
          (w.newVGS name ids).members⟩ := by
      have hid2 : (newSnap w name ids).id ≠ "" := hid
      unfold respOfExisting toCSI
      rw [if_neg hid2]
      rfl
    have hst : (createVolumeGroupSnapshot w ⟨name, ids⟩).store =
        newSnap w name ids :: w.store := by rw [h1]
    have hlk : (createVolumeGroupSnapshot w ⟨name, ids⟩).locks = w.locks := by
      rw [h1]
      exact List.erase_cons_head name w.locks
    have hrp : (createVolumeGroupSnapshot w ⟨name, ids⟩).resp =
        respOfExisting (newSnap w name ids) := by rw [h1]
    refine ⟨hrp.trans hresp, ?_⟩
    have hfind2 : (newSnap w name ids :: w.store).find?
        (fun t => t.name == name) = some (newSnap w name ids) := by
      have hname : ((newSnap w name ids).name == name) = true := by
        simp [newSnap]
      simp [List.find?_cons, hname]
    have h2 := create_found
      { w with store := newSnap w name ids :: w.store, locks := w.locks }
      name ids (newSnap w name ids) hl hres hfind2
    rw [hst, hlk, hrp, h2]
    rw [List.erase_cons_head]

/-- Witness for C1: with the snapshot "vgs1" already present, Create returns
its conversion untouched; and after a successful Create in the all-ok world,
repeating the call returns the same response with no events. -/
theorem vgs_create_idempotent_witness :
    createVolumeGroupSnapshot wFound ⟨"vgs1", ["v1"]⟩ =
      ⟨respOfExisting ⟨"gs-1", "vgs1", [⟨"v1", "h1"⟩], true⟩,
        wFound.store, wFound.locks, []⟩ ∧
    (createVolumeGroupSnapshot wOK ⟨"vgs1", ["v1"]⟩).resp =
      Except.ok ⟨(wOK.newVGS "vgs1" ["v1"]).id, (wOK.newVGS "vgs1" ["v1"]).ready,
        (wOK.newVGS "vgs1" ["v1"]).members⟩ ∧
    createVolumeGroupSnapshot
        { wOK with store := (createVolumeGroupSnapshot wOK ⟨"vgs1", ["v1"]⟩).store,
                   locks := (createVolumeGroupSnapshot wOK ⟨"vgs1", ["v1"]⟩).locks }
        ⟨"vgs1", ["v1"]⟩ =
      ⟨(createVolumeGroupSnapshot wOK ⟨"vgs1", ["v1"]⟩).resp,
        (createVolumeGroupSnapshot wOK ⟨"vgs1", ["v1"]⟩).store,
        (createVolumeGroupSnapshot wOK ⟨"vgs1", ["v1"]⟩).locks, []⟩ :=
  ⟨vgs_create_idempotent.1 wFound "vgs1" ["v1"] ⟨"gs-1", "vgs1", [⟨"v1", "h1"⟩], true⟩
      (by decide) (by decide) (by decide),
    (vgs_create_idempotent.2 wOK "vgs1" ["v1"] (by decide) (by decide) (by decide)
      (by decide) (by decide) (by decide) (by decide) (by decide) (by decide)).1,
    (vgs_create_idempotent.2 wOK "vgs1" ["v1"] (by decide) (by decide) (by decide)
      (by decide) (by decide) (by decide) (by decide) (by decide) (by decide)).2⟩

/-- Sanity check against TestSetQOS (part_000 lines 46-60): with base limits
only (no per-GiB limit, no base volume size) the base limit string is stored
unchanged. -/
theorem calcQos_testSetQOS_base :
    calcQosBasedOnCapacity ⟨1073741824, "", []⟩
        ⟨"rbd_qos_read_iops_limit", "2000", "ReadIopsPerGiB", "", true⟩ =
      Except.ok ⟨1073741824, "", [("rbd_qos_read_iops_limit", "2000")]⟩ := by decide

/-- Sanity check against TestSetQOS (part_000 lines 82-105): at 20 GiB with
base volume size 20 GiB the requested size does not exceed the base, so the
base limit is stored unchanged. -/
theorem calcQos_testSetQOS_at_base_size :
    calcQosBasedOnCapacity ⟨21474836480, "21474836480", []⟩
        ⟨"rbd_qos_write_iops_limit", "1000", "WriteIopsPerGiB", "10", true⟩ =
      Except.ok ⟨21474836480, "21474836480",
        [("rbd_qos_write_iops_limit", "1000")]⟩ := by decide

/-- Sanity check against TestSetQOS (part_000 lines 107-119): at 100 GiB the
write bps limit is 104857600 + 80 * 1048576 = 188743680, the expected value
of the test. -/
theorem calcQos_testSetQOS_write_bps :
    calcQosBasedOnCapacity ⟨107374182400, "21474836480", []⟩
        ⟨"rbd_qos_write_bps_limit", "104857600", "WriteBpsPerGiB", "1048576", true⟩ =
      Except.ok ⟨107374182400, "21474836480",
        [("rbd_qos_write_bps_limit", "188743680")]⟩ := by decide

/-- Counterexample for C9: with base limit "0", per-GiB limit 2^62, base
volume size "0" and a requested size of 4 GiB, the code stores "0" (the
int64 product 4 * 2^62 wraps to 0), while the claim formula
baseLimit + ((RequestedVolSize - baseVolSize) / 2^30) * perGiBLimit equals
2^64, which is not 0: the stored parameter differs from the claimed
value. -/
theorem calcQos_formula_overflow_cex :
    calcQosBasedOnCapacity ⟨4294967296, "0", []⟩
        ⟨"rbd_qos_read_iops_limit", "0", "ReadIopsPerGiB",
          "4611686018427387904", true⟩ =
      Except.ok ⟨4294967296, "0", [("rbd_qos_read_iops_limit", "0")]⟩ ∧
    parseInt64 "0" = some 0 ∧
    parseInt64 "4611686018427387904" = some 4611686018427387904 ∧
    (0 : Int) + ((4294967296 : Int) - 0).tdiv (2 ^ 30) * 4611686018427387904 ≠ 0 :=
  ⟨by decide, by decide, by decide, by decide⟩

/-- Claim C9 amended: for parses b, p, s of the base limit, the per-GiB
limit and the base volume size, calcQosBasedOnCapacity sets the QoS
parameter to b + ((RequestedVolSize - s) / 2^30) * p evaluated in wrapping
64-bit (Go int64) arithmetic when RequestedVolSize > s, and to exactly the
base limit when RequestedVolSize <= s or when the per-GiB limit or the base
volume size is absent. -/
theorem calcQos_capacity_formula (rv : RbdVolume) (qos : QosSpec) (b : Int)
    (hb : parseInt64 qos.baseLimit = some b) :
    (∀ p s, parseInt64 qos.perGiBLimit = some p →
      parseInt64 rv.BaseVolSize = some s →
      qos.perGiBLimit ≠ "" → rv.BaseVolSize ≠ "" →
      (s < rv.RequestedVolSize →
        calcQosBasedOnCapacity rv qos = Except.ok { rv with
          QosParameters := (qos.baseLimitType,
            toString (wrap64 (b +
              wrap64 ((wrap64 (rv.RequestedVolSize - s)).tdiv oneGB * p)))) ::
            rv.QosParameters }) ∧
      (rv.RequestedVolSize ≤ s →
        calcQosBasedOnCapacity rv qos = Except.ok { rv with
          QosParameters := (qos.baseLimitType, qos.baseLimit) ::
            rv.QosParameters })) ∧
    ((qos.perGiBLimit = "" ∨ rv.BaseVolSize = "") →
      calcQosBasedOnCapacity rv qos = Except.ok { rv with
        QosParameters := (qos.baseLimitType, qos.baseLimit) ::
          rv.QosParameters }) := by
  have hne : qos.baseLimit ≠ "" := by
    intro h0
    rw [h0] at hb
    exact Option.noConfusion hb
  constructor
  · intro p s hp hs hpne hsne
    constructor
    · intro hlt
      unfold calcQosBasedOnCapacity
      simp [hne, hb, hp, hs, hpne, hsne, not_le.2 hlt]
    · intro hle
      unfold calcQosBasedOnCapacity
      simp [hne, hb, hp, hs, hpne, hsne, hle]
  · intro hor
    have hno : ¬(qos.perGiBLimit ≠ "" ∧ rv.BaseVolSize ≠ "") := by
      rcases hor with h | h <;> simp [h]
    unfold calcQosBasedOnCapacity
    simp [hne, hb, hno]

/-- Witness for C9 (amended): the 100 GiB read-iops row of TestSetQOS,
2000 + 80 * 20 = 3600. -/
theorem calcQos_capacity_formula_witness :
    calcQosBasedOnCapacity ⟨107374182400, "21474836480", []⟩
        ⟨"rbd_qos_read_iops_limit", "2000", "ReadIopsPerGiB", "20", true⟩ =
      Except.ok ⟨107374182400, "21474836480",
        [("rbd_qos_read_iops_limit", "3600")]⟩ := by
  have h := ((calcQos_capacity_formula ⟨107374182400, "21474836480", []⟩
      ⟨"rbd_qos_read_iops_limit", "2000", "ReadIopsPerGiB", "20", true⟩ 2000
      (by decide)).1 20 21474836480 (by decide) (by decide) (by decide)
      (by decide)).1 (by decide)
  exact h.trans (by decide)

theorem errorsIs_iff (err : GoError) (k : ErrKind) :
    errorsIs err k = true ↔ baseKind err = some k := by
  induction err with
  | sentinel k2 => simp [errorsIs, baseKind, beq_iff_eq]
  | wrap m inner ih => simpa [errorsIs, baseKind] using ih
  | plain m => simp [errorsIs, baseKind]

/-- Claim C10: ShouldRetryVolumeGeneration is true exactly for a non-nil
error that wraps one of ErrKeyNotFound, ErrPoolNotFound, ErrImageNotFound or
rados.ErrPermissionDenied; in particular it is false for nil and for every
other error. -/
theorem shouldRetry_iff (e : Option GoError) :
    ShouldRetryVolumeGeneration e = true ↔
      ∃ err, e = some err ∧ ∃ k ∈ retryKinds, baseKind err = some k := by
  cases e with
  | none => simp [ShouldRetryVolumeGeneration]
  | some err =>
    simp only [ShouldRetryVolumeGeneration, Bool.or_eq_true, errorsIs_iff]
    constructor
    · rintro (((h | h) | h) | h)
      · exact ⟨err, rfl, ErrKind.keyNotFound, by simp [retryKinds], h⟩
      · exact ⟨err, rfl, ErrKind.poolNotFound, by simp [retryKinds], h⟩
      · exact ⟨err, rfl, ErrKind.imageNotFound, by simp [retryKinds], h⟩
      · exact ⟨err, rfl, ErrKind.permissionDenied, by simp [retryKinds], h⟩
    · rintro ⟨err2, heq, k, hk, hbase⟩
      injection heq with h2
      subst h2
      simp only [retryKinds, List.mem_cons, List.not_mem_nil, or_false] at hk
      rcases hk with rfl | rfl | rfl | rfl <;> simp [hbase]

end CephCSI
